import Mathlib

/-!
# Countdown widget: a shallow embedding of `src/CountdownWidget.cpp`

The file has two parts.  The first part gives executable models of the Qt value
types the widget computes with (`QString` helpers, `QDate`, `QDateTime`,
`QJsonObject`) and then the two classes of the source file, `CountdownDisplay`
and `CountdownWidget`, slot by slot.  The second part states and proves the
properties of the widget.

Conventions of the embedding:

* `QDateTime::currentDateTime()` and `QDate::currentDate()` read the clock; the
  slots that call them take the value read as an explicit argument `now` /
  `today`.
* A `QDateTime` is a local calendar date plus the milliseconds elapsed since the
  start of that day.  Differences of two instants are taken on that local
  scale, that is, with one and the same UTC offset at both instants.
* `qint64` arithmetic is exact integer arithmetic: the dates the widget can hold
  come from `QDate::fromString` (years 1..9999) or from the `QDateEdit`
  (1752-09-14..9999-12-31), for which no intermediate value leaves the 64-bit
  range.  C++ `/` and `%` are `Int.tdiv` and `Int.tmod` (rounding toward zero).
* Widgets are records of the properties the slots read or write (text, style
  sheet, hidden flag, current page, timer activity).
-/

namespace Countdown

/-! ## QString helpers -/

/-- Model of `QChar::isSpace`: the ASCII blanks U+0009..U+000D and U+0020, plus
U+0085, U+00A0 and the Unicode separator categories Zs, Zl and Zp. -/
def isSpace (c : Char) : Bool :=
  let u := c.toNat
  u == 0x20 || (0x09 ≤ u && u ≤ 0x0d) || u == 0x85 || u == 0xa0 || u == 0x1680 ||
    (0x2000 ≤ u && u ≤ 0x200a) || u == 0x2028 || u == 0x2029 || u == 0x202f ||
    u == 0x205f || u == 0x3000

/-- Model of `QString::trimmed`: whitespace removed from the start and the end. -/
def trimmed (s : String) : String :=
  ⟨((s.data.dropWhile isSpace).reverse.dropWhile isSpace).reverse⟩

/-- Model of `QString::isEmpty`. -/
def isEmpty (s : String) : Bool := s.data.isEmpty

/-- Model of `QString::toUpper` on the ASCII letters (Qt also maps the letters
outside ASCII, which no property below depends on). -/
def toUpper (s : String) : String := ⟨s.data.map Char.toUpper⟩

/-- Model of `QString::number(qint64)`: the decimal numeral. -/
def number (n : Int) : String := toString n

/-- Model of `QString::arg(qlonglong a, int fieldWidth, 10, QChar fillChar)` as a
function of the number alone: the decimal numeral of `a`, padded on the left
with `fillChar` up to `fieldWidth` characters.  It is only applied to
non-negative numbers. -/
def argPadded (a : Int) (fieldWidth : Nat) (fillChar : Char) : String :=
  ⟨List.replicate (fieldWidth - (number a).length) fillChar ++ (number a).data⟩

/-- The text `QString("%1:%2:%3").arg(h, 2, 10, '0').arg(m, 2, 10, '0').arg(s, 2, 10, '0')`:
each `arg` replaces the lowest numbered place marker, and the replacements
(numerals) contain no marker themselves. -/
def hmsText (h m s : Int) : String :=
  argPadded h 2 '0' ++ ":" ++ argPadded m 2 '0' ++ ":" ++ argPadded s 2 '0'

/-- Model of `QChar::isDigit` on ASCII. -/
def isDigit (c : Char) : Bool := 48 ≤ c.toNat && c.toNat ≤ 57

/-- Model of `QChar::isPunct` on ASCII: the characters of the Unicode
punctuation categories below U+0080. -/
def isPunct (c : Char) : Bool :=
  [33, 34, 35, 37, 38, 39, 40, 41, 42, 44, 45, 46, 47, 58, 59, 63, 64, 91, 92, 93, 95, 123, 125].contains
    c.toNat

/-- Model of the `readInt` helper of `qdatetime.cpp`: the text must be a
non-empty run of ASCII digits, and its value is returned. -/
def readInt (text : List Char) : Option Int :=
  if text.isEmpty || !text.all isDigit then none
  else some (text.foldl (fun acc c => acc * 10 + ((c.toNat : Int) - 48)) 0)

/-! ## QDate -/

/-- A `QDate` is its Julian day number `jd`. -/
structure QDate where
  jd : Int
deriving DecidableEq, Repr

namespace QDate

/-- The `jd` of a default constructed (null) date: the least `qint64`. -/
def nullJd : Int := -(2 ^ 63)

/-- Least Julian day of a valid date. -/
def minJd : Int := -784350574879

/-- Greatest Julian day of a valid date. -/
def maxJd : Int := 784354017364

/-- The default constructed date `QDate()`. -/
def null : QDate := ⟨nullJd⟩

/-- Translation of `QDate::isValid`. -/
def isValid (d : QDate) : Bool := decide (minJd ≤ d.jd) && decide (d.jd ≤ maxJd)

/-- Translation of `QDate::fromJulianDay`. -/
def fromJulianDay (jd : Int) : QDate :=
  if decide (minJd ≤ jd) && decide (jd ≤ maxJd) then ⟨jd⟩ else null

/-- Translation of `QDate::daysTo`. -/
def daysTo (d other : QDate) : Int :=
  if !d.isValid || !other.isValid then 0 else other.jd - d.jd

/-- Translation of `QDate::addDays`. -/
def addDays (d : QDate) (ndays : Int) : QDate :=
  if !d.isValid then null else fromJulianDay (d.jd + ndays)

/-- Translation of `QGregorianCalendar::leapTest`. -/
def leapTest (year : Int) : Bool :=
  let y := if year < 1 then year + 1 else year
  y % 4 == 0 && (y % 100 != 0 || y % 400 == 0)

/-- Translation of `QGregorianCalendar::monthLength`. -/
def monthLength (month year : Int) : Int :=
  if month < 1 ∨ 12 < month then 0
  else if month = 2 then (if leapTest year then 29 else 28)
  else if month = 4 ∨ month = 6 ∨ month = 9 ∨ month = 11 then 30 else 31

/-- Translation of `QGregorianCalendar::validParts`. -/
def validParts (year month day : Int) : Bool :=
  decide (year ≠ 0) && decide (0 < day) && decide (day ≤ monthLength month year)

/-- Translation of `QGregorianCalendar::julianFromParts` (the divisions are
floor divisions by positive constants). -/
def julianFromParts (year month day : Int) : Option Int :=
  if !validParts year month day then none
  else
    let year1 := if year < 0 then year + 1 else year
    let a : Int := if month < 3 then 1 else 0
    let y := year1 + 4800 - a
    let m := month + 12 * a - 3
    some (day + (153 * m + 2) / 5 - 32045 + 365 * y + y / 4 - y / 100 + y / 400)

/-- Translation of `QGregorianCalendar::partsFromJulian`: year, month, day. -/
def partsFromJulian (jd : Int) : Int × Int × Int :=
  let a := jd + 32044
  let b := (4 * a + 3) / 146097
  let c := a - (146097 * b) / 4
  let d := (4 * c + 3) / 1461
  let e := c - (1461 * d) / 4
  let m := (5 * e + 2) / 153
  let y := 100 * b + d - 4800 + m / 10
  (if y ≤ 0 then y - 1 else y, m + 3 - 12 * (m / 10), e - (153 * m + 2) / 5 + 1)

/-- The constructor `QDate(int y, int m, int d)`. -/
def ofYMD (y m d : Int) : QDate :=
  match julianFromParts y m d with
  | some jd => ⟨jd⟩
  | none => null

/-- Translation of `QDate::fromString(string, Qt::ISODate)`: at least ten
characters, punctuation at positions 4 and 7, no digit at position 10, and the
three fields read by `readInt` with the year in 1..9999. -/
def fromString (string : String) : QDate :=
  let cs := string.data
  if 10 ≤ cs.length ∧ isPunct (cs.getD 4 ' ') ∧ isPunct (cs.getD 7 ' ') ∧
      (cs.length = 10 ∨ ¬ isDigit (cs.getD 10 ' ')) then
    match readInt (cs.take 4), readInt ((cs.drop 5).take 2), readInt ((cs.drop 8).take 2) with
    | some year, some month, some day =>
      if 0 < year ∧ year ≤ 9999 then ofYMD year month day else null
    | _, _, _ => null
  else null

/-- Translation of `QDate::toString(Qt::ISODate)`: `yyyy-MM-dd` for a valid date
of a year in 0..9999, the empty string otherwise. -/
def toString (d : QDate) : String :=
  let parts := partsFromJulian d.jd
  if d.isValid ∧ 0 ≤ parts.1 ∧ parts.1 ≤ 9999 then
    argPadded parts.1 4 '0' ++ "-" ++ argPadded parts.2.1 2 '0' ++ "-" ++ argPadded parts.2.2 2 '0'
  else ""

/-- Month names of the C locale, which `QDate::toString(format)` uses. -/
def monthName (month : Int) : String :=
  ["January", "February", "March", "April", "May", "June", "July", "August", "September",
    "October", "November", "December"].getD (month - 1).toNat ""

/-- Translation of `QDate::toString("MMMM d, yyyy")`. -/
def toStringLong (d : QDate) : String :=
  let parts := partsFromJulian d.jd
  if d.isValid then
    monthName parts.2.1 ++ " " ++ number parts.2.2 ++ ", " ++
      (if parts.1 < 0 then "-" ++ argPadded (-parts.1) 4 '0' else argPadded parts.1 4 '0')
  else ""

end QDate

/-! ## QDateTime -/

/-- A local `QDateTime`: the calendar date and the milliseconds since the start
of that day (`time().msecsSinceStartOfDay()`). -/
structure QDateTime where
  date : QDate
  msecsOfDay : Nat
deriving DecidableEq, Repr

namespace QDateTime

/-- The constructor `QDateTime(date, QTime(0, 0, 0))`. -/
def atMidnight (date : QDate) : QDateTime := ⟨date, 0⟩

/-- The constructor `QDateTime(date, QTime(h, m, s))`. -/
def ofDateHMS (date : QDate) (h m s : Nat) : QDateTime := ⟨date, ((h * 60 + m) * 60 + s) * 1000⟩

/-- Translation of `QDateTime::isValid`: a valid date and a time within the day. -/
def isValid (dt : QDateTime) : Bool := dt.date.isValid && decide (dt.msecsOfDay < 86400000)

/-- Translation of `QDateTime::msecsTo`. -/
def msecsTo (dt other : QDateTime) : Int :=
  if !dt.isValid || !other.isValid then 0
  else (other.date.jd - dt.date.jd) * 86400000 + ((other.msecsOfDay : Int) - (dt.msecsOfDay : Int))

/-- Translation of `QDateTime::secsTo`: `msecsTo(other) / 1000`. -/
def secsTo (dt other : QDateTime) : Int := Int.tdiv (dt.msecsTo other) 1000

end QDateTime

/-! ## QJsonObject -/

/-- The kinds of `QJsonValue` that `QJsonValue::toString` tells apart: a string
holds its text, every other kind (here undefined, null, bool and an integral
number) is not a string. -/
inductive QJsonValue where
  | undefined
  | null
  | bool (b : Bool)
  | number (n : Int)
  | string (s : String)
deriving DecidableEq, Repr

/-- Translation of `QJsonValue::toString()`: the text of a string value, the
null (empty) string for any other kind. -/
def QJsonValue.toString : QJsonValue → String
  | .string s => s
  | _ => ""

/-- A `QJsonObject` as its list of key/value pairs; a key denotes its first
binding. -/
abbrev QJsonObject := List (String × QJsonValue)

/-- Translation of `QJsonObject::value(key)`: the value bound to the key, or
`QJsonValue::Undefined` when the key is absent. -/
def QJsonObject.value (data : QJsonObject) (key : String) : QJsonValue :=
  (data.lookup key).getD .undefined

/-! ## Widgets -/

/-- The properties of a `QLabel` that the display reads or writes. -/
structure QLabel where
  text : String
  styleSheet : String
  hidden : Bool
deriving DecidableEq, Repr

/-- A `QTimer`: its interval in milliseconds and whether it is running. -/
structure QTimer where
  interval : Nat
  active : Bool
deriving DecidableEq, Repr

namespace QDateEdit

/-- Default minimum date of a `QDateEdit`, 1752-09-14. -/
def minimumDate : QDate := ⟨2361222⟩

/-- Default maximum date of a `QDateEdit`, 9999-12-31. -/
def maximumDate : QDate := ⟨5373484⟩

/-- Date of a freshly constructed `QDateEdit`, 2000-01-01. -/
def initialDate : QDate := ⟨2451545⟩

/-- Translation of `QDateEdit::setDate` as a function of the date held before:
an invalid date is ignored, a valid one is bounded by the minimum and maximum
dates. -/
def setDate (current date : QDate) : QDate :=
  if date.isValid then
    (if date.jd < minimumDate.jd then minimumDate
     else if maximumDate.jd < date.jd then maximumDate else date)
  else current

end QDateEdit

/-! ## CountdownDisplay -/

/-- The two pages of the stacked widget, named as in the specification:
page 0 is the countdown view, page 1 the editor. -/
inductive PresentationMode where
  | Display
  | Edit
deriving DecidableEq, Repr

/-- State of a `CountdownDisplay`: its member variables, each widget reduced to
the properties the slots use. -/
structure CountdownDisplay where
  timer_ : QTimer
  /-- Value of `stack_->currentIndex()`. -/
  stackIndex : Nat
  eventNameLabel_ : QLabel
  daysLabel_ : QLabel
  daysWordLabel_ : QLabel
  hmsLabel_ : QLabel
  dateLabel_ : QLabel
  /-- Value of `labelEdit_->text()`. -/
  labelEdit_ : String
  /-- Value of `dateEdit_->date()`. -/
  dateEdit_ : QDate
  label_ : String
  targetDate_ : QDate
deriving DecidableEq, Repr

namespace CountdownDisplay

/-- Style sheet of the numeral in the today case. -/
def todayStyle : String :=
  "color: #55cc88; font-size: 38px; font-weight: bold; background: transparent;"

/-- Style sheet of the numeral in the past case. -/
def pastStyle : String :=
  "color: #888899; font-size: 52px; font-weight: bold; background: transparent;"

/-- Style sheet of the numeral in the future case. -/
def futureStyle : String :=
  "color: #e8eaf0; font-size: 52px; font-weight: bold; background: transparent;"

/-- The presentation mode shown by the stacked widget. -/
def mode (st : CountdownDisplay) : PresentationMode :=
  if st.stackIndex = 0 then .Display else .Edit

/-- Translation of `targetDateString`. -/
def targetDateString (st : CountdownDisplay) : String :=
  if st.targetDate_.isValid then st.targetDate_.toString else ""

/-- Local `days` of the future branch of `updateCountdownLabels`. -/
def days (secs : Int) : Int := Int.tdiv secs 86400

/-- Local `rem` of the future branch of `updateCountdownLabels`. -/
def rem (secs : Int) : Int := Int.tmod secs 86400

/-- Local `h` of the future branch of `updateCountdownLabels`. -/
def h (secs : Int) : Int := Int.tdiv (rem secs) 3600

/-- Local `m` of the future branch of `updateCountdownLabels`. -/
def m (secs : Int) : Int := Int.tdiv (Int.tmod (rem secs) 3600) 60

/-- Local `s` of the future branch of `updateCountdownLabels`. -/
def s (secs : Int) : Int := Int.tmod (rem secs) 60

/-- Translation of `updateCountdownLabels`, with `now` the value of
`QDateTime::currentDateTime()`. -/
def updateCountdownLabels (st : CountdownDisplay) (now : QDateTime) : CountdownDisplay :=
  if !st.targetDate_.isValid then st
  else
    let target := QDateTime.atMidnight st.targetDate_
    let secs := now.secsTo target
    let st1 : CountdownDisplay :=
      if secs ≤ 0 then
        let absDays := |now.date.daysTo st.targetDate_|
        if absDays = 0 then
          { st with
            daysLabel_ := { st.daysLabel_ with text := "Today!", styleSheet := todayStyle }
            daysWordLabel_ := { st.daysWordLabel_ with hidden := true }
            hmsLabel_ := { st.hmsLabel_ with hidden := true } }
        else
          { st with
            daysLabel_ := { st.daysLabel_ with text := number absDays, styleSheet := pastStyle }
            daysWordLabel_ :=
              { st.daysWordLabel_ with
                text := if absDays = 1 then "day ago" else "days ago", hidden := false }
            hmsLabel_ := { st.hmsLabel_ with hidden := true } }
      else
        { st with
          daysLabel_ := { st.daysLabel_ with text := number (days secs), styleSheet := futureStyle }
          daysWordLabel_ :=
            { st.daysWordLabel_ with
              text := if days secs = 1 then "day" else "days", hidden := false }
          hmsLabel_ :=
            { st.hmsLabel_ with text := hmsText (h secs) (m secs) (s secs), hidden := false } }
    { st1 with dateLabel_ := { st1.dateLabel_ with text := st.targetDate_.toStringLong } }

/-- Translation of `showCountdown`. -/
def showCountdown (st : CountdownDisplay) (now : QDateTime) : CountdownDisplay :=
  let st1 : CountdownDisplay :=
    { st with
      labelEdit_ := st.label_
      dateEdit_ := if st.targetDate_.isValid then QDateEdit.setDate st.dateEdit_ st.targetDate_
                   else st.dateEdit_ }
  let st2 : CountdownDisplay :=
    { st1 with
      eventNameLabel_ :=
        { st1.eventNameLabel_ with text := if isEmpty st1.label_ then "Event" else toUpper st1.label_ } }
  let st3 := st2.updateCountdownLabels now
  { st3 with stackIndex := 0, timer_ := { st3.timer_ with active := true } }

/-- Translation of `showEditor`. -/
def showEditor (st : CountdownDisplay) : CountdownDisplay :=
  { st with
    labelEdit_ := st.label_
    dateEdit_ := if st.targetDate_.isValid then QDateEdit.setDate st.dateEdit_ st.targetDate_
                 else st.dateEdit_
    stackIndex := 1 }

/-- Translation of the slot `refresh`, the handler of the timer tick. -/
def refresh (st : CountdownDisplay) (now : QDateTime) : CountdownDisplay :=
  st.updateCountdownLabels now

/-- Translation of the slot `onSave`: the new state and the arguments of the
emitted `dataChanged(label, targetDate)`. -/
def onSave (st : CountdownDisplay) (now : QDateTime) : CountdownDisplay × (String × String) :=
  let label1 := trimmed st.labelEdit_
  let targetDate1 := st.dateEdit_
  let label2 := if isEmpty label1 then "Event" else label1
  let st1 : CountdownDisplay :=
    { st with
      label_ := label2
      targetDate_ := targetDate1
      eventNameLabel_ := { st.eventNameLabel_ with text := label2 } }
  (st1.showCountdown now, (label2, targetDate1.toString))

/-- Translation of the slot `onEdit`. -/
def onEdit (st : CountdownDisplay) : CountdownDisplay :=
  { st with timer_ := { st.timer_ with active := false }, stackIndex := 1 }

/-- Translation of the slot `onCancel`. -/
def onCancel (st : CountdownDisplay) (now : QDateTime) : CountdownDisplay :=
  if st.targetDate_.isValid then st.showCountdown now else st

/-- The state after `buildUi` and the creation of the timer in the constructor:
empty labels (the day word reads "days"), the editor date thirty days after
`today`, page 0 current, the timer created with a one second interval and not
started. -/
def buildUi (label : String) (targetDate : QDate) (today : QDate) : CountdownDisplay :=
  { timer_ := { interval := 1000, active := false }
    stackIndex := 0
    eventNameLabel_ :=
      { text := ""
        styleSheet :=
          "color: #9090b8; font-size: 11px; font-weight: bold; letter-spacing: 2px; background: transparent;"
        hidden := false }
    daysLabel_ := { text := "", styleSheet := futureStyle, hidden := false }
    daysWordLabel_ :=
      { text := "days", styleSheet := "color: #606080; font-size: 13px; background: transparent;"
        hidden := false }
    hmsLabel_ :=
      { text := "", styleSheet := "color: #5577aa; font-size: 14px; background: transparent;"
        hidden := false }
    dateLabel_ :=
      { text := "", styleSheet := "color: #505070; font-size: 10px; background: transparent;"
        hidden := false }
    labelEdit_ := ""
    dateEdit_ := QDateEdit.setDate QDateEdit.initialDate (today.addDays 30)
    label_ := label
    targetDate_ := targetDate }

/-- Translation of the constructor `CountdownDisplay(label, targetDate, parent)`,
with `today` and `now` the values of `QDate::currentDate()` and
`QDateTime::currentDateTime()`. -/
def create (label targetDate : String) (today : QDate) (now : QDateTime) : CountdownDisplay :=
  let st := buildUi label (QDate.fromString targetDate) today
  if st.targetDate_.isValid then st.showCountdown now else st.showEditor

/-- What can happen to a display: the user types into the name field, picks a
date in the date field, presses one of the three buttons, or the tick handler
runs. -/
inductive Action where
  | typeLabel (text : String)
  | pickDate (date : QDate)
  | save (now : QDateTime)
  | edit
  | cancel (now : QDateTime)
  | tick (now : QDateTime)
deriving DecidableEq, Repr

/-- One action applied to a display. -/
def step (st : CountdownDisplay) : Action → CountdownDisplay
  | .typeLabel text => { st with labelEdit_ := text }
  | .pickDate date => { st with dateEdit_ := QDateEdit.setDate st.dateEdit_ date }
  | .save now => (st.onSave now).1
  | .edit => st.onEdit
  | .cancel now => st.onCancel now
  | .tick now => st.refresh now

/-- A sequence of actions applied to a display, first action first. -/
def run (st : CountdownDisplay) (actions : List Action) : CountdownDisplay :=
  actions.foldl step st

end CountdownDisplay

/-! ## CountdownWidget -/

/-- State of the plugin object `CountdownWidget`: the two strings it persists. -/
structure CountdownWidget where
  label_ : String
  targetDate_ : String
deriving DecidableEq, Repr

namespace CountdownWidget

/-- Translation of `createWidget`: the display built from the stored strings. -/
def createWidget (w : CountdownWidget) (today : QDate) (now : QDateTime) : CountdownDisplay :=
  CountdownDisplay.create w.label_ w.targetDate_ today now

/-- The lambda that `createWidget` connects to `dataChanged`. -/
def onDataChanged (_w : CountdownWidget) (label date : String) : CountdownWidget :=
  { label_ := label, targetDate_ := date }

/-- Translation of `serialize`. -/
def serialize (w : CountdownWidget) : QJsonObject :=
  [("label", .string w.label_), ("targetDate", .string w.targetDate_)]

/-- Translation of `deserialize`. -/
def deserialize (_w : CountdownWidget) (data : QJsonObject) : CountdownWidget :=
  { label_ := (data.value "label").toString
    targetDate_ := (data.value "targetDate").toString }

/-- A string is a well-formed ISO-8601 calendar date when it reads as a valid
date that prints back as the same string. -/
def isISODate (text : String) : Bool :=
  (QDate.fromString text).isValid && (QDate.fromString text).toString == text

end CountdownWidget

/-! ## Sample inputs -/

/-- The instant 2026-03-04T23:00:00. -/
def eveOfTrip : QDateTime := QDateTime.ofDateHMS (QDate.ofYMD 2026 3 4) 23 0 0

/-- A display created at 2026-03-04T23:00:00 from the stored event
("trip", "2026-03-05"). -/
def tripDisplay : CountdownDisplay :=
  CountdownDisplay.create "trip" "2026-03-05" (QDate.ofYMD 2026 3 4) eveOfTrip

/-- A display created at 2026-03-04T23:00:00 from an empty stored event. -/
def freshDisplay : CountdownDisplay :=
  CountdownDisplay.create "" "" (QDate.ofYMD 2026 3 4) eveOfTrip

/-- A display created at 2026-01-03T09:30:00 from the stored event
("new year", "2026-01-01"). -/
def newYearDisplay : CountdownDisplay :=
  CountdownDisplay.create "new year" "2026-01-01" (QDate.ofYMD 2026 1 3)
    (QDateTime.ofDateHMS (QDate.ofYMD 2026 1 3) 9 30 0)

/-- A stored record whose target date is not a calendar date. -/
def malformedRecord : QJsonObject :=
  [("label", .string "trip"), ("targetDate", .string "2026-13-45")]

/-- One second after `eveOfTrip`: the instant 2026-03-04T23:00:01. -/
def laterOnEve : QDateTime := QDateTime.ofDateHMS (QDate.ofYMD 2026 3 4) 23 0 1

/-! ## Arithmetic of the time difference -/

/-- Truncating division by 1000 keeps a non-positive number non-positive. -/
theorem tdiv_thousand_nonpos (a : Int) (ha : a ≤ 0) : Int.tdiv a 1000 ≤ 0 := by
  have h1 : Int.tdiv (-a) 1000 = -Int.tdiv a 1000 := Int.neg_tdiv a 1000
  have h2 : 0 ≤ Int.tdiv (-a) 1000 := Int.tdiv_nonneg (by omega) (by norm_num)
  omega

/-- From an instant of the target day itself, the whole seconds to the midnight
that starts the day are never positive. -/
theorem secsTo_midnight_same_day (now : QDateTime) :
    now.secsTo (QDateTime.atMidnight now.date) ≤ 0 := by
  unfold QDateTime.secsTo
  apply tdiv_thousand_nonpos
  unfold QDateTime.msecsTo
  split
  · exact le_refl 0
  · simp [QDateTime.atMidnight]

/-- From an instant of a later day, the whole seconds to the midnight that
starts the target day are never positive. -/
theorem secsTo_midnight_later_day (now : QDateTime) (d : QDate) (hafter : d.jd < now.date.jd) :
    now.secsTo (QDateTime.atMidnight d) ≤ 0 := by
  unfold QDateTime.secsTo
  apply tdiv_thousand_nonpos
  unfold QDateTime.msecsTo
  split
  · exact le_refl 0
  · simp only [QDateTime.atMidnight]
    have : (d.jd - now.date.jd) * 86400000 ≤ -86400000 := by nlinarith
    push_cast
    omega

/-- The seconds difference is positive exactly when at least one whole second
(1000 ms) separates the instant from the later one. -/
theorem secsTo_pos_iff (now other : QDateTime) :
    0 < now.secsTo other ↔ 1000 ≤ now.msecsTo other := by
  unfold QDateTime.secsTo
  constructor
  · intro hpos
    by_contra hlt
    rcases le_or_lt (now.msecsTo other) 0 with hneg | hge
    · have := tdiv_thousand_nonpos _ hneg
      omega
    · rw [Int.tdiv_eq_ediv (le_of_lt hge) (by norm_num)] at hpos
      omega
  · intro hge
    rw [Int.tdiv_eq_ediv (by omega) (by norm_num)]
    omega

/-- Claim C1 fails on the code in the last second before midnight: at
2026-03-04T23:59:59.500, an instant 500 ms before the local midnight that starts
the valid target date 2026-03-05, the whole seconds difference is already 0, so
`updateCountdownLabels` takes its "past or today" branch instead of the future
branch: the trip display reads 1 and "day ago", and the hours:minutes:seconds
line is hidden. -/
theorem last_second_before_midnight :
    tripDisplay.targetDate_ = QDate.ofYMD 2026 3 5 ∧ tripDisplay.targetDate_.isValid = true ∧
      (QDateTime.mk (QDate.ofYMD 2026 3 4) 86399500).isValid = true ∧
      (QDateTime.mk (QDate.ofYMD 2026 3 4) 86399500).msecsTo
        (QDateTime.atMidnight tripDisplay.targetDate_) = 500 ∧
      (QDateTime.mk (QDate.ofYMD 2026 3 4) 86399500).secsTo
        (QDateTime.atMidnight tripDisplay.targetDate_) = 0 ∧
      (tripDisplay.updateCountdownLabels ⟨QDate.ofYMD 2026 3 4, 86399500⟩).daysLabel_.text = "1" ∧
      (tripDisplay.updateCountdownLabels ⟨QDate.ofYMD 2026 3 4, 86399500⟩).daysLabel_.styleSheet =
        CountdownDisplay.pastStyle ∧
      (tripDisplay.updateCountdownLabels ⟨QDate.ofYMD 2026 3 4, 86399500⟩).daysWordLabel_.text =
        "day ago" ∧
      (tripDisplay.updateCountdownLabels ⟨QDate.ofYMD 2026 3 4, 86399500⟩).hmsLabel_.hidden =
        true := by
  decide

/-- The split of a positive number of seconds into days, hours, minutes and
seconds, as `updateCountdownLabels` computes it. -/
theorem future_parts (secs : Int) (hpos : 0 < secs) :
    CountdownDisplay.days secs * 86400 + CountdownDisplay.h secs * 3600 +
        CountdownDisplay.m secs * 60 + CountdownDisplay.s secs = secs ∧
      0 ≤ CountdownDisplay.h secs ∧ CountdownDisplay.h secs < 24 ∧
      0 ≤ CountdownDisplay.m secs ∧ CountdownDisplay.m secs < 60 ∧
      0 ≤ CountdownDisplay.s secs ∧ CountdownDisplay.s secs < 60 ∧
      0 ≤ CountdownDisplay.days secs := by
  have hrem : CountdownDisplay.rem secs = secs % 86400 := by
    unfold CountdownDisplay.rem
    exact Int.tmod_eq_emod (le_of_lt hpos) (by norm_num)
  have hrem0 : 0 ≤ secs % 86400 := Int.emod_nonneg _ (by norm_num)
  have hd : CountdownDisplay.days secs = secs / 86400 := by
    unfold CountdownDisplay.days
    exact Int.tdiv_eq_ediv (le_of_lt hpos) (by norm_num)
  have hh : CountdownDisplay.h secs = secs % 86400 / 3600 := by
    unfold CountdownDisplay.h
    rw [hrem]
    exact Int.tdiv_eq_ediv hrem0 (by norm_num)
  have hm : CountdownDisplay.m secs = secs % 86400 % 3600 / 60 := by
    unfold CountdownDisplay.m
    rw [hrem, Int.tmod_eq_emod hrem0 (by norm_num)]
    exact Int.tdiv_eq_ediv (Int.emod_nonneg _ (by norm_num)) (by norm_num)
  have hs : CountdownDisplay.s secs = secs % 86400 % 60 := by
    unfold CountdownDisplay.s
    rw [hrem]
    exact Int.tmod_eq_emod hrem0 (by norm_num)
  rw [hd, hh, hm, hs]
  omega

/-! ## The three cases of `updateCountdownLabels` -/

/-- The rendering of the future branch. -/
theorem updateCountdownLabels_future (st : CountdownDisplay) (now : QDateTime) (secs : Int)
    (hvalid : st.targetDate_.isValid = true)
    (hsecs : now.secsTo (QDateTime.atMidnight st.targetDate_) = secs) (hpos : 0 < secs) :
    (st.updateCountdownLabels now).daysLabel_.text = number (CountdownDisplay.days secs) ∧
      (st.updateCountdownLabels now).daysLabel_.styleSheet = CountdownDisplay.futureStyle ∧
      (st.updateCountdownLabels now).daysWordLabel_.text =
        (if CountdownDisplay.days secs = 1 then "day" else "days") ∧
      (st.updateCountdownLabels now).daysWordLabel_.hidden = false ∧
      (st.updateCountdownLabels now).hmsLabel_.text =
        hmsText (CountdownDisplay.h secs) (CountdownDisplay.m secs) (CountdownDisplay.s secs) ∧
      (st.updateCountdownLabels now).hmsLabel_.hidden = false := by
  have hnot : ¬ secs ≤ 0 := not_le.mpr hpos
  simp [CountdownDisplay.updateCountdownLabels, hvalid, hsecs, hnot]

/-- The future branch and its arithmetic: for a valid target date and an
instant whose whole seconds difference `secs` to the local midnight of the
target date is positive (at least 1000 ms to go), `updateCountdownLabels`
renders the future case, and `days * 86400 + h * 3600 + m * 60 + s = secs` with
`0 ≤ h < 24`, `0 ≤ m < 60`, `0 ≤ s < 60` and `0 ≤ days`. -/
theorem future_case (st : CountdownDisplay) (now : QDateTime) (secs : Int)
    (hvalid : st.targetDate_.isValid = true)
    (hsecs : now.secsTo (QDateTime.atMidnight st.targetDate_) = secs) (hpos : 0 < secs) :
    ((st.updateCountdownLabels now).daysLabel_.text = number (CountdownDisplay.days secs) ∧
      (st.updateCountdownLabels now).daysLabel_.styleSheet = CountdownDisplay.futureStyle ∧
      (st.updateCountdownLabels now).daysWordLabel_.text =
        (if CountdownDisplay.days secs = 1 then "day" else "days") ∧
      (st.updateCountdownLabels now).daysWordLabel_.hidden = false ∧
      (st.updateCountdownLabels now).hmsLabel_.text =
        hmsText (CountdownDisplay.h secs) (CountdownDisplay.m secs) (CountdownDisplay.s secs) ∧
      (st.updateCountdownLabels now).hmsLabel_.hidden = false) ∧
      CountdownDisplay.days secs * 86400 + CountdownDisplay.h secs * 3600 +
          CountdownDisplay.m secs * 60 + CountdownDisplay.s secs = secs ∧
      0 ≤ CountdownDisplay.h secs ∧ CountdownDisplay.h secs < 24 ∧
      0 ≤ CountdownDisplay.m secs ∧ CountdownDisplay.m secs < 60 ∧
      0 ≤ CountdownDisplay.s secs ∧ CountdownDisplay.s secs < 60 ∧
      0 ≤ CountdownDisplay.days secs :=
  ⟨updateCountdownLabels_future st now secs hvalid hsecs hpos, future_parts secs hpos⟩

/-- Instance of `future_case`: one hour before the midnight that starts
2026-03-05. -/
theorem future_case_witness :
    tripDisplay.targetDate_.isValid = true ∧
      eveOfTrip.secsTo (QDateTime.atMidnight tripDisplay.targetDate_) = 3600 ∧
      (tripDisplay.updateCountdownLabels eveOfTrip).daysLabel_.text = "0" ∧
      (tripDisplay.updateCountdownLabels eveOfTrip).hmsLabel_.hidden = false ∧
      CountdownDisplay.days 3600 * 86400 + CountdownDisplay.h 3600 * 3600 +
          CountdownDisplay.m 3600 * 60 + CountdownDisplay.s 3600 = 3600 := by
  have key := future_case tripDisplay eveOfTrip 3600 (by decide) (by decide) (by decide)
  exact ⟨by decide, by decide, key.1.1.trans (by decide), key.1.2.2.2.2.2, key.2.1⟩

/-- Claim C2: for a valid target date and any instant whose calendar date is the
target date, whatever the time of day, `updateCountdownLabels` renders the
today case: the main text is "Today!", and both the day word line and the
hours:minutes:seconds line are hidden. -/
theorem today_case (st : CountdownDisplay) (now : QDateTime)
    (hvalid : st.targetDate_.isValid = true) (hday : now.date = st.targetDate_) :
    (st.updateCountdownLabels now).daysLabel_.text = "Today!" ∧
      (st.updateCountdownLabels now).daysLabel_.styleSheet = CountdownDisplay.todayStyle ∧
      (st.updateCountdownLabels now).daysWordLabel_.hidden = true ∧
      (st.updateCountdownLabels now).hmsLabel_.hidden = true := by
  have hle : now.secsTo (QDateTime.atMidnight st.targetDate_) ≤ 0 := by
    rw [← hday]
    exact secsTo_midnight_same_day now
  have habs : |now.date.daysTo st.targetDate_| = 0 := by
    rw [hday]
    simp [QDate.daysTo]
  simp [CountdownDisplay.updateCountdownLabels, hvalid, hle, habs]

/-- Instance of `today_case`: the last millisecond of 2026-03-05. -/
theorem today_case_witness :
    tripDisplay.targetDate_.isValid = true ∧
      (QDateTime.mk (QDate.ofYMD 2026 3 5) 86399999).date = tripDisplay.targetDate_ ∧
      (tripDisplay.updateCountdownLabels ⟨QDate.ofYMD 2026 3 5, 86399999⟩).daysLabel_.text =
        "Today!" ∧
      (tripDisplay.updateCountdownLabels ⟨QDate.ofYMD 2026 3 5, 86399999⟩).daysWordLabel_.hidden =
        true ∧
      (tripDisplay.updateCountdownLabels ⟨QDate.ofYMD 2026 3 5, 86399999⟩).hmsLabel_.hidden =
        true := by
  have key := today_case tripDisplay ⟨QDate.ofYMD 2026 3 5, 86399999⟩ (by decide) (by decide)
  exact ⟨by decide, by decide, key.1, key.2.2.1, key.2.2.2⟩

/-- Claim C3: for a valid target date `D` and any instant whose (valid) calendar
date is strictly after `D`, `updateCountdownLabels` renders the past case with
`daysAgo` the number of calendar days from `D` to the date of the instant:
`daysAgo > 0`, the numeral shown is `daysAgo`, the day word is shown and reads
"day ago" exactly when `daysAgo = 1` and "days ago" otherwise, and the
hours:minutes:seconds line is hidden. -/
theorem past_case (st : CountdownDisplay) (now : QDateTime) (daysAgo : Int)
    (hvalid : st.targetDate_.isValid = true) (hnow : now.date.isValid = true)
    (hafter : st.targetDate_.jd < now.date.jd)
    (hago : st.targetDate_.daysTo now.date = daysAgo) :
    0 < daysAgo ∧ daysAgo = now.date.jd - st.targetDate_.jd ∧
      (st.updateCountdownLabels now).daysLabel_.text = number daysAgo ∧
      (st.updateCountdownLabels now).daysLabel_.styleSheet = CountdownDisplay.pastStyle ∧
      (st.updateCountdownLabels now).daysWordLabel_.text =
        (if daysAgo = 1 then "day ago" else "days ago") ∧
      (st.updateCountdownLabels now).daysWordLabel_.hidden = false ∧
      (st.updateCountdownLabels now).hmsLabel_.hidden = true := by
  have hle : now.secsTo (QDateTime.atMidnight st.targetDate_) ≤ 0 :=
    secsTo_midnight_later_day now st.targetDate_ hafter
  have hd : daysAgo = now.date.jd - st.targetDate_.jd := by
    rw [← hago]
    simp [QDate.daysTo, hvalid, hnow]
  have hposd : 0 < daysAgo := by omega
  have habs : |now.date.daysTo st.targetDate_| = daysAgo := by
    have : now.date.daysTo st.targetDate_ = -daysAgo := by
      simp [QDate.daysTo, hvalid, hnow]
      omega
    rw [this, abs_neg, abs_of_pos hposd]
  have hne : ¬ daysAgo = 0 := by omega
  refine ⟨hposd, hd, ?_⟩
  simp [CountdownDisplay.updateCountdownLabels, hvalid, hle, habs, hne]

/-- Instance of `past_case`: target date 2026-01-01 seen on 2026-01-03 gives
2 and "days ago". -/
theorem past_case_witness :
    newYearDisplay.targetDate_ = QDate.ofYMD 2026 1 1 ∧
      newYearDisplay.targetDate_.isValid = true ∧
      (QDate.ofYMD 2026 1 3).isValid = true ∧
      newYearDisplay.targetDate_.jd < (QDate.ofYMD 2026 1 3).jd ∧
      newYearDisplay.targetDate_.daysTo (QDate.ofYMD 2026 1 3) = 2 ∧
      (newYearDisplay.updateCountdownLabels
          (QDateTime.ofDateHMS (QDate.ofYMD 2026 1 3) 9 30 0)).daysLabel_.text = "2" ∧
      (newYearDisplay.updateCountdownLabels
          (QDateTime.ofDateHMS (QDate.ofYMD 2026 1 3) 9 30 0)).daysWordLabel_.text = "days ago" ∧
      (newYearDisplay.updateCountdownLabels
          (QDateTime.ofDateHMS (QDate.ofYMD 2026 1 3) 9 30 0)).hmsLabel_.hidden = true := by
  have key := past_case newYearDisplay (QDateTime.ofDateHMS (QDate.ofYMD 2026 1 3) 9 30 0) 2
    (by decide) (by decide) (by decide) (by decide)
  exact ⟨by decide, by decide, by decide, by decide, by decide, key.2.2.1.trans (by decide),
    key.2.2.2.2.1.trans (by decide), key.2.2.2.2.2.2⟩

/-- Claim C6, as the code computes it: at 2026-03-04T23:00:00 with target date
2026-03-05 the seconds difference is 3600 and `updateCountdownLabels` renders
the future case with days = 0, hours = 1, minutes = 0, seconds = 0, shown as
"01:00:00", and the day word "days". -/
theorem hour_before_midnight (st : CountdownDisplay) :
    eveOfTrip.secsTo (QDateTime.atMidnight (QDate.ofYMD 2026 3 5)) = 3600 ∧
      CountdownDisplay.days 3600 = 0 ∧ CountdownDisplay.h 3600 = 1 ∧
      CountdownDisplay.m 3600 = 0 ∧ CountdownDisplay.s 3600 = 0 ∧
      (({ st with targetDate_ := QDate.ofYMD 2026 3 5 } : CountdownDisplay).updateCountdownLabels
          eveOfTrip).daysLabel_.text = "0" ∧
      (({ st with targetDate_ := QDate.ofYMD 2026 3 5 } : CountdownDisplay).updateCountdownLabels
          eveOfTrip).daysWordLabel_.text = "days" ∧
      (({ st with targetDate_ := QDate.ofYMD 2026 3 5 } : CountdownDisplay).updateCountdownLabels
          eveOfTrip).daysWordLabel_.hidden = false ∧
      (({ st with targetDate_ := QDate.ofYMD 2026 3 5 } : CountdownDisplay).updateCountdownLabels
          eveOfTrip).hmsLabel_.text = "01:00:00" ∧
      (({ st with targetDate_ := QDate.ofYMD 2026 3 5 } : CountdownDisplay).updateCountdownLabels
          eveOfTrip).hmsLabel_.hidden = false := by
  have key := updateCountdownLabels_future { st with targetDate_ := QDate.ofYMD 2026 3 5 }
    eveOfTrip 3600 (by decide : (QDate.ofYMD 2026 3 5).isValid = true)
    (by decide : eveOfTrip.secsTo (QDateTime.atMidnight (QDate.ofYMD 2026 3 5)) = 3600)
    (by decide)
  refine ⟨by decide, by decide, by decide, by decide, by decide, ?_, ?_, key.2.2.2.1, ?_,
    key.2.2.2.2.2⟩
  · exact key.1.trans (by decide)
  · exact key.2.2.1.trans (by decide)
  · exact key.2.2.2.2.1.trans (by decide)

/-- Claim C6 as stated fails: at 2026-03-04T23:00:00 with target date 2026-03-05
(3600 seconds to go) the code does not compute hours = 0, minutes = 59,
seconds = 59, and the line shown is not "00:59:59". -/
theorem eve_of_trip_not_005959 :
    ¬ (eveOfTrip.secsTo (QDateTime.atMidnight tripDisplay.targetDate_) = 3600 ∧
        CountdownDisplay.days 3600 = 0 ∧ CountdownDisplay.h 3600 = 0 ∧
        CountdownDisplay.m 3600 = 59 ∧ CountdownDisplay.s 3600 = 59 ∧
        (tripDisplay.updateCountdownLabels eveOfTrip).hmsLabel_.text = "00:59:59" ∧
        (tripDisplay.updateCountdownLabels eveOfTrip).daysWordLabel_.text = "days") := by
  decide

/-! ## Persistence -/

/-- Claim C4: `deserialize` applied to `serialize e` restores a plugin state
equal to `e` in both fields, whatever the state before and whatever the two
strings of `e`; in particular when the target date of `e` is the empty string. -/
theorem deserialize_serialize (w e : CountdownWidget) (label : String) :
    w.deserialize e.serialize = e ∧
      (w.deserialize e.serialize).label_ = e.label_ ∧
      (w.deserialize e.serialize).targetDate_ = e.targetDate_ ∧
      w.deserialize (CountdownWidget.serialize ⟨label, ""⟩) = ⟨label, ""⟩ := by
  have hround : ∀ x : CountdownWidget, w.deserialize x.serialize = x := by
    intro x
    cases x
    simp [CountdownWidget.deserialize, CountdownWidget.serialize, QJsonObject.value,
      List.lookup, QJsonValue.toString]
  exact ⟨hround e, by rw [hround e], by rw [hround e], hround _⟩

/-- Claim C5 as stated fails: after `deserialize` of a record whose target date
is the malformed string "2026-13-45", `serialize` returns that very string,
which is neither empty nor a well-formed calendar date. -/
theorem malformed_date_counterexample :
    (((⟨"", ""⟩ : CountdownWidget).deserialize malformedRecord).serialize.value "targetDate").toString =
        "2026-13-45" ∧
      "2026-13-45" ≠ "" ∧ CountdownWidget.isISODate "2026-13-45" = false ∧
      (QDate.fromString "2026-13-45").isValid = false := by
  decide

/-! ## What the slots leave alone -/

/-- The fields `updateCountdownLabels` never writes. -/
theorem updateCountdownLabels_frame (st : CountdownDisplay) (now : QDateTime) :
    (st.updateCountdownLabels now).label_ = st.label_ ∧
      (st.updateCountdownLabels now).targetDate_ = st.targetDate_ ∧
      (st.updateCountdownLabels now).timer_ = st.timer_ ∧
      (st.updateCountdownLabels now).stackIndex = st.stackIndex ∧
      (st.updateCountdownLabels now).labelEdit_ = st.labelEdit_ ∧
      (st.updateCountdownLabels now).dateEdit_ = st.dateEdit_ ∧
      (st.updateCountdownLabels now).eventNameLabel_ = st.eventNameLabel_ := by
  unfold CountdownDisplay.updateCountdownLabels
  by_cases hv : st.targetDate_.isValid = true
  · by_cases hs : now.secsTo (QDateTime.atMidnight st.targetDate_) ≤ 0
    · by_cases ha : |now.date.daysTo st.targetDate_| = 0 <;> simp [hv, hs, ha]
    · simp [hv, hs]
  · simp [hv]

@[simp]
theorem updateCountdownLabels_label (st : CountdownDisplay) (now : QDateTime) :
    (st.updateCountdownLabels now).label_ = st.label_ :=
  (updateCountdownLabels_frame st now).1

@[simp]
theorem updateCountdownLabels_targetDate (st : CountdownDisplay) (now : QDateTime) :
    (st.updateCountdownLabels now).targetDate_ = st.targetDate_ :=
  (updateCountdownLabels_frame st now).2.1

@[simp]
theorem updateCountdownLabels_timer (st : CountdownDisplay) (now : QDateTime) :
    (st.updateCountdownLabels now).timer_ = st.timer_ :=
  (updateCountdownLabels_frame st now).2.2.1

@[simp]
theorem updateCountdownLabels_stackIndex (st : CountdownDisplay) (now : QDateTime) :
    (st.updateCountdownLabels now).stackIndex = st.stackIndex :=
  (updateCountdownLabels_frame st now).2.2.2.1

@[simp]
theorem updateCountdownLabels_labelEdit (st : CountdownDisplay) (now : QDateTime) :
    (st.updateCountdownLabels now).labelEdit_ = st.labelEdit_ :=
  (updateCountdownLabels_frame st now).2.2.2.2.1

@[simp]
theorem updateCountdownLabels_dateEdit (st : CountdownDisplay) (now : QDateTime) :
    (st.updateCountdownLabels now).dateEdit_ = st.dateEdit_ :=
  (updateCountdownLabels_frame st now).2.2.2.2.2.1

@[simp]
theorem updateCountdownLabels_eventNameLabel (st : CountdownDisplay) (now : QDateTime) :
    (st.updateCountdownLabels now).eventNameLabel_ = st.eventNameLabel_ :=
  (updateCountdownLabels_frame st now).2.2.2.2.2.2

/-- Without a valid target date `updateCountdownLabels` returns at once. -/
theorem updateCountdownLabels_skip (st : CountdownDisplay) (now : QDateTime)
    (hinvalid : st.targetDate_.isValid = false) : st.updateCountdownLabels now = st := by
  simp [CountdownDisplay.updateCountdownLabels, hinvalid]

/-- The result of `showCountdown`: page 0, timer running, event untouched. -/
theorem showCountdown_frame (st : CountdownDisplay) (now : QDateTime) :
    (st.showCountdown now).stackIndex = 0 ∧ (st.showCountdown now).timer_.active = true ∧
      (st.showCountdown now).timer_.interval = st.timer_.interval ∧
      (st.showCountdown now).label_ = st.label_ ∧
      (st.showCountdown now).targetDate_ = st.targetDate_ := by
  simp [CountdownDisplay.showCountdown]

/-- A string is empty exactly when `isEmpty` says so. -/
theorem isEmpty_iff (text : String) : isEmpty text = true ↔ text = "" := by
  unfold isEmpty
  constructor
  · intro h
    cases text with
    | mk data =>
      cases data with
      | nil => rfl
      | cons a l => simp at h
  · intro h
    subst h
    rfl

/-- Claim C5, as the code behaves: after `deserialize` of any record,
`serialize` returns for both keys the string stored in the record (the empty
string when the key is absent or bound to a non-string), unvalidated; a target
date string that does not parse to a valid date is treated as unset by the
display created from it, which opens in Edit mode with an empty
`targetDateString`, while one that parses opens in Display mode. -/
theorem serialize_returns_stored_date (w : CountdownWidget) (data : QJsonObject) (today : QDate)
    (now : QDateTime) :
    ((w.deserialize data).serialize.value "targetDate").toString =
        (data.value "targetDate").toString ∧
      ((w.deserialize data).serialize.value "label").toString = (data.value "label").toString ∧
      (if (QDate.fromString (data.value "targetDate").toString).isValid then
        ((w.deserialize data).createWidget today now).mode = .Display
      else
        ((w.deserialize data).createWidget today now).mode = .Edit ∧
          ((w.deserialize data).createWidget today now).targetDateString = "") := by
  refine ⟨?_, ?_, ?_⟩
  · simp [CountdownWidget.deserialize, CountdownWidget.serialize, QJsonObject.value,
      List.lookup, QJsonValue.toString]
  · simp [CountdownWidget.deserialize, CountdownWidget.serialize, QJsonObject.value,
      List.lookup, QJsonValue.toString]
  · simp only [CountdownWidget.createWidget, CountdownWidget.deserialize, CountdownDisplay.create,
      CountdownDisplay.buildUi]
    split_ifs with hv
    · simp only [CountdownDisplay.mode]
      rw [(showCountdown_frame _ now).1]
      rfl
    · simp [CountdownDisplay.mode, CountdownDisplay.showEditor, CountdownDisplay.targetDateString,
        hv]

/-! ## Save -/

/-- Claim C7: for every raw label text `r` and editor date `d` the save action
(a total function) stores as the event label, emits in `dataChanged`, and thereby
hands to the plugin, the trimmed `r` when that is non-empty and "Event"
otherwise; the stored label is never empty, and the label "   " yields
"Event". -/
theorem save_label (st : CountdownDisplay) (w : CountdownWidget) (r : String) (d : QDate)
    (now : QDateTime) :
    (({ st with labelEdit_ := r, dateEdit_ := d } : CountdownDisplay).onSave now).1.label_ =
        (if trimmed r = "" then "Event" else trimmed r) ∧
      (({ st with labelEdit_ := r, dateEdit_ := d } : CountdownDisplay).onSave now).2.1 =
        (if trimmed r = "" then "Event" else trimmed r) ∧
      (w.onDataChanged
          (({ st with labelEdit_ := r, dateEdit_ := d } : CountdownDisplay).onSave now).2.1
          (({ st with labelEdit_ := r, dateEdit_ := d } : CountdownDisplay).onSave now).2.2).label_ =
        (if trimmed r = "" then "Event" else trimmed r) ∧
      (({ st with labelEdit_ := r, dateEdit_ := d } : CountdownDisplay).onSave now).1.label_ ≠ "" ∧
      (({ st with labelEdit_ := "   ", dateEdit_ := d } : CountdownDisplay).onSave now).1.label_ =
        "Event" := by
  have hlabel : ∀ t : String,
      (({ st with labelEdit_ := t, dateEdit_ := d } : CountdownDisplay).onSave now).1.label_ =
        (if trimmed t = "" then "Event" else trimmed t) := by
    intro t
    simp only [CountdownDisplay.onSave]
    rw [(showCountdown_frame _ now).2.2.2.1]
    by_cases he : trimmed t = ""
    · simp [he, (isEmpty_iff _).mpr rfl]
    · have hne : isEmpty (trimmed t) = false := by
        cases hb : isEmpty (trimmed t) with
        | false => rfl
        | true => exact absurd ((isEmpty_iff _).mp hb) he
      simp [he, hne]
  have hemit : (({ st with labelEdit_ := r, dateEdit_ := d } : CountdownDisplay).onSave now).2.1 =
      (if trimmed r = "" then "Event" else trimmed r) := by
    simp only [CountdownDisplay.onSave]
    by_cases he : trimmed r = ""
    · simp [he, (isEmpty_iff _).mpr rfl]
    · have hne : isEmpty (trimmed r) = false := by
        cases hb : isEmpty (trimmed r) with
        | false => rfl
        | true => exact absurd ((isEmpty_iff _).mp hb) he
      simp [he, hne]
  refine ⟨hlabel r, hemit, ?_, ?_, ?_⟩
  · simp only [CountdownWidget.onDataChanged]
    exact hemit
  · rw [hlabel r]
    by_cases he : trimmed r = ""
    · simp [he]
    · simp [he]
  · rw [hlabel "   "]
    have : trimmed "   " = "" := by decide
    simp [this]

/-! ## The presenter -/

/-- Claim C8: in Edit mode, cancel without a valid target date changes nothing
(the mode stays Edit, the event and the timer are as before); cancel with a
valid target date moves to Display, leaves label and target date unchanged and
starts the timer. -/
theorem cancel_transition (st : CountdownDisplay) (now : QDateTime)
    (hmode : st.mode = .Edit) :
    (if st.targetDate_.isValid then
      (st.onCancel now).mode = .Display ∧ (st.onCancel now).label_ = st.label_ ∧
        (st.onCancel now).targetDate_ = st.targetDate_ ∧
        (st.onCancel now).timer_.active = true
    else
      st.onCancel now = st ∧ (st.onCancel now).mode = .Edit ∧
        (st.onCancel now).label_ = st.label_ ∧
        (st.onCancel now).targetDate_ = st.targetDate_ ∧
        (st.onCancel now).timer_ = st.timer_) := by
  by_cases hv : st.targetDate_.isValid = true
  · simp [CountdownDisplay.onCancel, hv, CountdownDisplay.mode, showCountdown_frame]
  · simp [CountdownDisplay.onCancel, hv, hmode]

/-- Instances of `cancel_transition`: a first-time editor stays in Edit with
its timer stopped, and the editor opened over the trip countdown returns to
Display with the timer running. -/
theorem cancel_transition_witness :
    (freshDisplay.mode = .Edit ∧ freshDisplay.targetDate_.isValid = false ∧
        freshDisplay.onCancel eveOfTrip = freshDisplay ∧
        (freshDisplay.onCancel eveOfTrip).timer_.active = false) ∧
      (tripDisplay.onEdit.mode = .Edit ∧ tripDisplay.onEdit.targetDate_.isValid = true ∧
        (tripDisplay.onEdit.onCancel laterOnEve).mode = .Display ∧
        (tripDisplay.onEdit.onCancel laterOnEve).timer_.active = true) := by
  have k1 := cancel_transition freshDisplay eveOfTrip (by decide)
  have k2 := cancel_transition tripDisplay.onEdit laterOnEve (by decide)
  have h1 : freshDisplay.targetDate_.isValid = false := by decide
  have h2 : tripDisplay.onEdit.targetDate_.isValid = true := by decide
  rw [if_neg (by rw [h1]; decide)] at k1
  rw [if_pos h2] at k2
  exact ⟨⟨by decide, h1, k1.1, by rw [k1.1]; decide⟩, ⟨by decide, h2, k2.1, k2.2.2.2⟩⟩

/-- Claim C9 as stated fails: after edit from Display the mode is Edit and the
timer is stopped, yet a call of the tick handler one second later re-renders
the hours:minutes:seconds line. -/
theorem tick_in_edit_counterexample :
    tripDisplay.mode = .Display ∧ tripDisplay.onEdit.mode = .Edit ∧
      tripDisplay.onEdit.timer_.active = false ∧
      tripDisplay.onEdit.hmsLabel_.text = "01:00:00" ∧
      (tripDisplay.onEdit.refresh laterOnEve).hmsLabel_.text = "00:59:59" ∧
      tripDisplay.onEdit.refresh laterOnEve ≠ tripDisplay.onEdit := by
  decide

/-- Claim C9, as the code behaves: from Display mode (indeed from any state) the
edit action moves to Edit mode and stops the timer, leaving the event alone; the tick handler has no
mode guard, so a call of it in Edit mode keeps mode, timer, event and editor
fields but renders the four countdown labels exactly as the same tick would
in Display mode, and it is a no-op whenever there is no valid target date. -/
theorem edit_then_tick (st : CountdownDisplay) (now : QDateTime) :
    (st.onEdit.mode = .Edit ∧ st.onEdit.timer_.active = false ∧
        st.onEdit.label_ = st.label_ ∧ st.onEdit.targetDate_ = st.targetDate_) ∧
      ((st.onEdit.refresh now).mode = .Edit ∧ (st.onEdit.refresh now).timer_.active = false ∧
        (st.onEdit.refresh now).label_ = st.label_ ∧
        (st.onEdit.refresh now).targetDate_ = st.targetDate_ ∧
        (st.onEdit.refresh now).labelEdit_ = st.labelEdit_ ∧
        (st.onEdit.refresh now).dateEdit_ = st.dateEdit_) ∧
      ((st.onEdit.refresh now).daysLabel_ = (st.refresh now).daysLabel_ ∧
        (st.onEdit.refresh now).daysWordLabel_ = (st.refresh now).daysWordLabel_ ∧
        (st.onEdit.refresh now).hmsLabel_ = (st.refresh now).hmsLabel_ ∧
        (st.onEdit.refresh now).dateLabel_ = (st.refresh now).dateLabel_) ∧
      (st.targetDate_.isValid = true ∨ st.onEdit.refresh now = st.onEdit) := by
  refine ⟨?_, ?_, ?_, ?_⟩
  · simp [CountdownDisplay.onEdit, CountdownDisplay.mode]
  · simp [CountdownDisplay.refresh, CountdownDisplay.mode, CountdownDisplay.onEdit]
  · simp only [CountdownDisplay.refresh, CountdownDisplay.onEdit,
      CountdownDisplay.updateCountdownLabels]
    by_cases hv : st.targetDate_.isValid = true
    · by_cases hs : now.secsTo (QDateTime.atMidnight st.targetDate_) ≤ 0
      · by_cases ha : |now.date.daysTo st.targetDate_| = 0 <;> simp [hv, hs, ha]
      · simp [hv, hs]
    · simp [hv]
  · by_cases hv : st.targetDate_.isValid = true
    · exact Or.inl hv
    · right
      exact updateCountdownLabels_skip _ now (by simpa [CountdownDisplay.onEdit] using hv)

/-- Instance of `edit_then_tick`: the trip countdown, edited, then ticked one
second later. -/
theorem edit_then_tick_witness :
    tripDisplay.mode = .Display ∧ tripDisplay.onEdit.mode = .Edit ∧
      tripDisplay.onEdit.timer_.active = false ∧
      (tripDisplay.onEdit.refresh laterOnEve).mode = .Edit ∧
      (tripDisplay.onEdit.refresh laterOnEve).hmsLabel_ = (tripDisplay.refresh laterOnEve).hmsLabel_ ∧
      (tripDisplay.refresh laterOnEve).hmsLabel_.text = "00:59:59" := by
  have key := edit_then_tick tripDisplay laterOnEve
  exact ⟨by decide, key.1.1, key.1.2.1, key.2.1.1, key.2.2.1.2.2.1, by decide⟩

/-! ## Reachable states -/

/-- The date editor only ever holds a valid date. -/
theorem setDate_isValid (current date : QDate) (hcur : current.isValid = true) :
    (QDateEdit.setDate current date).isValid = true := by
  unfold QDateEdit.setDate
  split_ifs with h1 h2 h3
  · decide
  · decide
  · exact h1
  · exact hcur

/-- A display created by the constructor holds a valid editor date, and shows
page 0 only with a valid target date. -/
theorem create_invariant (label targetDate : String) (today : QDate) (now : QDateTime) :
    (CountdownDisplay.create label targetDate today now).dateEdit_.isValid = true ∧
      ((CountdownDisplay.create label targetDate today now).stackIndex = 0 →
        (CountdownDisplay.create label targetDate today now).targetDate_.isValid = true) := by
  have hinit : (QDateEdit.setDate QDateEdit.initialDate (today.addDays 30)).isValid = true :=
    setDate_isValid _ _ (by decide)
  unfold CountdownDisplay.create
  by_cases hv : (QDate.fromString targetDate).isValid = true
  · simp only [CountdownDisplay.buildUi, hv, if_true]
    refine ⟨?_, fun _ => ?_⟩
    · simp only [CountdownDisplay.showCountdown, updateCountdownLabels_dateEdit, hv, if_true]
      exact setDate_isValid _ _ hinit
    · simp [CountdownDisplay.showCountdown, hv]
  · simp only [CountdownDisplay.buildUi, hv]
    simp [CountdownDisplay.showEditor, hv, hinit]

/-- Every action keeps the editor date valid and page 0 tied to a valid target
date. -/
theorem step_invariant (st : CountdownDisplay) (a : CountdownDisplay.Action)
    (hedit : st.dateEdit_.isValid = true)
    (hpage : st.stackIndex = 0 → st.targetDate_.isValid = true) :
    (st.step a).dateEdit_.isValid = true ∧
      ((st.step a).stackIndex = 0 → (st.step a).targetDate_.isValid = true) := by
  cases a with
  | typeLabel text => exact ⟨hedit, hpage⟩
  | pickDate date =>
    exact ⟨setDate_isValid _ _ hedit, hpage⟩
  | save now =>
    simp only [CountdownDisplay.step, CountdownDisplay.onSave, CountdownDisplay.showCountdown,
      updateCountdownLabels_dateEdit, updateCountdownLabels_targetDate, hedit, if_true]
    exact ⟨setDate_isValid _ _ hedit, fun _ => trivial⟩
  | edit =>
    simp [CountdownDisplay.step, CountdownDisplay.onEdit, hedit]
  | cancel now =>
    simp only [CountdownDisplay.step, CountdownDisplay.onCancel]
    by_cases hv : st.targetDate_.isValid = true
    · simp only [hv, if_true, CountdownDisplay.showCountdown, updateCountdownLabels_dateEdit,
        updateCountdownLabels_targetDate]
      exact ⟨setDate_isValid _ _ hedit, fun _ => trivial⟩
    · simp only [hv]
      exact ⟨hedit, hpage⟩
  | tick now =>
    simp only [CountdownDisplay.step, CountdownDisplay.refresh, updateCountdownLabels_dateEdit,
      updateCountdownLabels_targetDate, updateCountdownLabels_stackIndex]
    exact ⟨hedit, hpage⟩

/-- The invariant holds after any sequence of actions. -/
theorem run_invariant (actions : List CountdownDisplay.Action) (st : CountdownDisplay)
    (hedit : st.dateEdit_.isValid = true)
    (hpage : st.stackIndex = 0 → st.targetDate_.isValid = true) :
    (st.run actions).dateEdit_.isValid = true ∧
      ((st.run actions).stackIndex = 0 → (st.run actions).targetDate_.isValid = true) := by
  induction actions generalizing st with
  | nil => exact ⟨hedit, hpage⟩
  | cons a rest ih =>
    have hstep := step_invariant st a hedit hpage
    exact ih (st.step a) hstep.1 hstep.2

/-- Claim C10: the display created from a stored target date string starts in
Display mode if the string parses to a valid date and in Edit mode otherwise;
and after any sequence of user edits of the two fields, edit, save, cancel and
tick, the editor date is valid (so every save stores a valid date) and
Display mode implies a valid target date, so that a tick in Display mode never
takes the skip branch of `updateCountdownLabels`. -/
theorem display_mode_has_valid_date (label targetDate : String) (today : QDate) (now : QDateTime)
    (actions : List CountdownDisplay.Action) :
    (CountdownDisplay.create label targetDate today now).mode =
        (if (QDate.fromString targetDate).isValid then .Display else .Edit) ∧
      ((CountdownDisplay.create label targetDate today now).run actions).dateEdit_.isValid = true ∧
      (((CountdownDisplay.create label targetDate today now).run actions).mode = .Display →
        ((CountdownDisplay.create label targetDate today now).run actions).targetDate_.isValid =
          true) := by
  have hinit := create_invariant label targetDate today now
  have hrun := run_invariant actions _ hinit.1 hinit.2
  refine ⟨?_, hrun.1, ?_⟩
  · unfold CountdownDisplay.create
    by_cases hv : (QDate.fromString targetDate).isValid = true
    · simp [CountdownDisplay.buildUi, hv, CountdownDisplay.mode, showCountdown_frame]
    · simp [CountdownDisplay.buildUi, hv, CountdownDisplay.mode, CountdownDisplay.showEditor]
  · intro hmode
    apply hrun.2
    by_contra hne
    simp [CountdownDisplay.mode, hne] at hmode

/-- Instance of `display_mode_has_valid_date`: a first-time setup saved for
2026-03-05, edited again, cancelled and ticked ends in Display mode with a valid
target date. -/
theorem display_mode_has_valid_date_witness :
    freshDisplay.mode = .Edit ∧
      (freshDisplay.run
          [.typeLabel " trip ", .pickDate (QDate.ofYMD 2026 3 5), .save eveOfTrip, .edit,
            .cancel laterOnEve, .tick laterOnEve]).mode = .Display ∧
      (freshDisplay.run
          [.typeLabel " trip ", .pickDate (QDate.ofYMD 2026 3 5), .save eveOfTrip, .edit,
            .cancel laterOnEve, .tick laterOnEve]).targetDate_.isValid = true ∧
      (freshDisplay.run
          [.typeLabel " trip ", .pickDate (QDate.ofYMD 2026 3 5), .save eveOfTrip, .edit,
            .cancel laterOnEve, .tick laterOnEve]).label_ = "trip" := by
  have key := display_mode_has_valid_date "" "" (QDate.ofYMD 2026 3 4) eveOfTrip
    [.typeLabel " trip ", .pickDate (QDate.ofYMD 2026 3 5), .save eveOfTrip, .edit,
      .cancel laterOnEve, .tick laterOnEve]
  exact ⟨by decide, by decide, key.2.2 (by decide), by decide⟩

end Countdown
